import Mathlib

/-!
Shallow embedding of the `risco_temp_cabo` repository (CIGRE 601 thermal
model, Monte Carlo simulation, kriging post-processing and NBR 5422 risk
analysis) together with proofs about the embedded operations.

Python floats are modelled by `FloatV` (a rational value, or one of the
IEEE special values NaN / +inf / -inf) where non-finite values matter,
and by plain rationals (`ℚ`) or reals (`ℝ`) elsewhere.
-/

/-- Model of a Python float: a rational number or one of the IEEE special
values NaN, +infinity, -infinity. -/
inductive FloatV : Type
  | nan : FloatV
  | inf : FloatV
  | ninf : FloatV
  | val : ℚ → FloatV
deriving DecidableEq, Repr

namespace FloatV

/-- `np.isfinite`: true exactly on ordinary (rational) values. -/
def isFinite : FloatV → Bool
  | val _ => true
  | _ => false

/-- `np.isnan`: true exactly on NaN. -/
def isNaN : FloatV → Bool
  | nan => true
  | _ => false

/-- IEEE comparison `x < c` of a float against a finite constant `c`:
NaN compares false, `-inf < c` is true, `+inf < c` is false. -/
def ltC (x : FloatV) (c : ℚ) : Bool :=
  match x with
  | nan => false
  | inf => false
  | ninf => true
  | val q => decide (q < c)

/-- Extract the rational value of a finite float (`0` as a junk default
for non-finite inputs, never used on them). -/
def toRat : FloatV → ℚ
  | val q => q
  | _ => 0

/-- The finite (non-NaN, non-infinite) content of a float, as used by
`x[np.isfinite(x)]` filters. -/
def finitePart : FloatV → Option ℚ
  | val q => some q
  | _ => none

end FloatV

/-! ## config.py : constants (`src/config.py`) -/

/-- `config.TEMP_AR_MIN` (°C). -/
def TEMP_AR_MIN : ℚ := -50

/-- `config.TEMP_AR_MAX` (°C). -/
def TEMP_AR_MAX : ℚ := 60

/-- `config.RADIACAO_MIN` (kJ/m²). -/
def RADIACAO_MIN : ℚ := 0

/-- `config.RADIACAO_MAX` (kJ/m²). -/
def RADIACAO_MAX : ℚ := 4000

/-- `config.VENTO_VEL_MAX` (m/s). -/
def VENTO_VEL_MAX : ℚ := 50

/-- `config.VARIAVEIS_AMBIENTAIS`, also the list
`variaveis_obrigatorias` in `MonteCarloSimulator._validar_dados_entrada`. -/
def variaveis_obrigatorias : List String :=
  ["temperatura_ar", "radiacao_global", "vento_u", "vento_v"]

/-! ## geoprocessing.py : kriging post-filter bounds
(`GeoProcessor._validar_radiacao_krigagem`,
`_validar_temperatura_krigagem`, `_validar_vento_krigagem`) -/

/-- Lower bound of the kriging radiation post-filter (W/m²),
`_validar_radiacao_krigagem.limite_min`. -/
def KRIG_RADIACAO_MIN : ℚ := 0

/-- Upper bound of the kriging radiation post-filter (W/m²),
`_validar_radiacao_krigagem.limite_max`. -/
def KRIG_RADIACAO_MAX : ℚ := 1400

/-- Lower bound of the kriging air-temperature post-filter (°C),
`_validar_temperatura_krigagem.limite_min`. -/
def KRIG_TEMP_MIN : ℚ := -10

/-- Upper bound of the kriging air-temperature post-filter (°C),
`_validar_temperatura_krigagem.limite_max`. -/
def KRIG_TEMP_MAX : ℚ := 55

/-- Bound (absolute value) of the kriging wind-component post-filter (m/s),
`_validar_vento_krigagem` for `vento_u` / `vento_v`. -/
def KRIG_VENTO_MAX : ℚ := 50

/-! ## simulation.py : MonteCarloSimulator -/

/-- `np.clip(valor, lo, hi)` for finite arguments with `lo ≤ hi`. -/
def npClip (valor lo hi : ℚ) : ℚ := min (max valor lo) hi

/-- `MonteCarloSimulator._aplicar_limites_fisicos`
(`src/simulation.py` lines 208-217): clamps a sampled value to the
configuration bounds according to the variable name. -/
def aplicar_limites_fisicos (variavel : String) (valor : ℚ) : ℚ :=
  if variavel = "temperatura_ar" then
    npClip valor TEMP_AR_MIN TEMP_AR_MAX
  else if variavel = "radiacao_global" then
    npClip valor RADIACAO_MIN RADIACAO_MAX
  else if variavel = "vento_u" ∨ variavel = "vento_v" then
    npClip valor (-VENTO_VEL_MAX) VENTO_VEL_MAX
  else
    valor

/-- `MonteCarloSimulator._validar_temperatura_resultado`
(`src/simulation.py` lines 268-291): a solved conductor temperature is
accepted iff it is finite, at least `temperatura_ar - 5` and at most
`temperatura_ar + 200`. -/
def validar_temperatura_resultado (temperatura : FloatV) (temperatura_ar : ℚ) : Bool :=
  match temperatura with
  | .val q =>
    if q < temperatura_ar - 5 then false
    else if temperatura_ar + 200 < q then false
    else true
  | _ => false

/-- The accept/reject part of `MonteCarloSimulator._executar_loop_simulacao`
(`src/simulation.py` lines 146-155): each iteration yields a solved
temperature together with the sampled air temperature; accepted values are
appended to the distribution, rejected ones increment the error counter. -/
def executar_loop_simulacao : List (FloatV × ℚ) → List FloatV × ℕ
  | [] => ([], 0)
  | (t, ta) :: rest =>
    let r := executar_loop_simulacao rest
    if validar_temperatura_resultado t ta then (t :: r.1, r.2) else (r.1, r.2 + 1)

/-- The `except` branch of
`CigreModeloTermico.resolver_temperatura_condutor`
(`src/thermal_model.py` lines 362-365): on any internal solver error the
function returns the plain float `temperatura_ar + 50`, with no flag or
marker attached. -/
def fallback_temperatura (temperatura_ar : ℚ) : ℚ := temperatura_ar + 50

/-- `MonteCarloSimulator._validar_dados_entrada`
(`src/simulation.py` lines 91-105): walks the four required variables in
order and raises `ValueError` (modelled as `Except.error`) at the first
missing key, non-finite mean, or non-finite / negative standard
deviation. Dictionaries are modelled as association lists. -/
def validar_dados_entrada (medias desvios : List (String × FloatV)) :
    List String → Except String Unit
  | [] => .ok ()
  | var :: rest =>
    match medias.lookup var with
    | none => .error ("Variável '" ++ var ++ "' não encontrada nas médias ambientais")
    | some m =>
      match desvios.lookup var with
      | none => .error ("Variável '" ++ var ++ "' não encontrada nos desvios ambientais")
      | some d =>
        if ¬ m.isFinite then .error ("Média de '" ++ var ++ "' inválida")
        else if ¬ d.isFinite ∨ d.ltC 0 then
          .error ("Desvio padrão de '" ++ var ++ "' inválido")
        else validar_dados_entrada medias desvios rest

/-- `MonteCarloSimulator.executar_simulacao` (`src/simulation.py` lines
50-65), abstracted over the per-iteration solver outcomes: it validates
the environmental input first and only then runs the simulation loop;
a validation error propagates and no iteration is executed. -/
def executar_simulacao (medias desvios : List (String × FloatV))
    (resultados : List (FloatV × ℚ)) : Except String (List FloatV × ℕ) :=
  match validar_dados_entrada medias desvios variaveis_obrigatorias with
  | .error e => .error e
  | .ok _ => .ok (executar_loop_simulacao resultados)

/-- Per-variable validity condition checked by `_validar_dados_entrada`:
present in both dictionaries, finite mean, finite non-negative standard
deviation. -/
def entrada_valida (medias desvios : List (String × FloatV)) (var : String) : Bool :=
  match medias.lookup var, desvios.lookup var with
  | some m, some d => m.isFinite && (d.isFinite && !(d.ltC 0))
  | _, _ => false

/-! ## thermal_model.py : AC resistance -/

/-- `CigreModeloTermico.calcular_resistencia_ac`
(`src/thermal_model.py` lines 40-58): clamps to `R25` below 25 °C, to
`R75` above 75 °C, linear interpolation in between. Stated generically
over a linear ordered field so it serves both the rational and the real
developments. -/
def calcular_resistencia_ac {α : Type} [LinearOrderedField α]
    (resistencia_ac_25 resistencia_ac_75 temperatura_condutor : α) : α :=
  if temperatura_condutor ≤ 25 then resistencia_ac_25
  else if 75 ≤ temperatura_condutor then resistencia_ac_75
  else
    resistencia_ac_25 +
      (temperatura_condutor - 25) / (75 - 25) * (resistencia_ac_75 - resistencia_ac_25)

/-! ## risk_analysis.py : RiskAnalyzer -/

/-- `RiskAnalyzer.calcular_risco_termico` (`src/risk_analysis.py` lines
61-87): NaN for an empty distribution or one with no finite values,
otherwise the fraction of finite values strictly greater than the design
limit. -/
def calcular_risco_termico (temperaturas : List FloatV)
    (temperatura_max_projeto : ℚ) : FloatV :=
  if temperaturas = [] then .nan
  else
    let validas := temperaturas.filterMap FloatV.finitePart
    if validas = [] then .nan
    else
      .val ((validas.countP (fun t => decide (temperatura_max_projeto < t)) : ℚ) /
        (validas.length : ℚ))

/-- `RiskAnalyzer.classificar_risco_nbr_5422` (`src/risk_analysis.py`
lines 89-134) restricted to the returned `categoria` field, with the
thresholds of `_definir_criterios_nbr_5422` (lines 20-32): NaN →
"indefinido", `< 0.01` → "baixo", `< 0.05` → "moderado", `< 0.10` →
"alto", otherwise "critico". -/
def classificar_risco_nbr_5422 (probabilidade_excedencia : FloatV) : String :=
  if probabilidade_excedencia.isNaN then "indefinido"
  else if probabilidade_excedencia.ltC (1/100) then "baixo"
  else if probabilidade_excedencia.ltC (5/100) then "moderado"
  else if probabilidade_excedencia.ltC (10/100) then "alto"
  else "critico"

/-! ## geoprocessing.py : kriging result plumbing -/

/-- Result of one per-variable kriging run
(the dict returned by `GeoProcessor._executar_krigagem_variavel` /
`_criar_resultado_nan_variavel`). -/
structure ResultadoVariavel : Type where
  media : List FloatV
  variancia : List FloatV
  desvio_padrao : List FloatV
deriving DecidableEq, Repr

/-- `GeoProcessor._criar_resultado_nan_variavel`
(`src/geoprocessing.py` lines 585-591): `np.full(num_pontos, np.nan)`
for mean, variance and standard deviation. -/
def criar_resultado_nan_variavel (num_pontos : ℕ) : ResultadoVariavel :=
  ⟨List.replicate num_pontos .nan, List.replicate num_pontos .nan,
    List.replicate num_pontos .nan⟩

/-- The variance floor applied by `GeoProcessor._executar_krigagem_variavel`
(`src/geoprocessing.py` line 331): `ss_pred = np.maximum(ss_pred, 0)`
on the raw kriging variances. -/
def floor_variancias (ss_pred : List ℚ) : List ℚ :=
  ss_pred.map (fun v => max v 0)

/-- The derived standard deviations of the same function
(`src/geoprocessing.py` line 344): `np.sqrt(ss_pred)` applied to the
floored variances. -/
noncomputable def desvios_padrao_krigagem (ss_pred : List ℚ) : List ℝ :=
  (floor_variancias ss_pred).map (fun v => Real.sqrt (v : ℝ))

/-- The per-variable body of `GeoProcessor._processar_hora_krigagem`
(`src/geoprocessing.py` lines 246-274): a missing column or fewer than 2
non-NaN station values (`indices_validos = ~np.isnan(valores_estacoes)`)
yields the all-NaN sentinel; otherwise the kriging routine (abstracted as
`krig`, fed with the non-NaN station values) is run. -/
def processar_variavel_krigagem (valores_estacoes : Option (List FloatV))
    (num_pontos : ℕ) (krig : List FloatV → ResultadoVariavel) : ResultadoVariavel :=
  match valores_estacoes with
  | none => criar_resultado_nan_variavel num_pontos
  | some valores =>
    let validos := valores.filter (fun v => !v.isNaN)
    if validos.length < 2 then criar_resultado_nan_variavel num_pontos
    else krig validos

/-- `GeoProcessor._processar_hora_krigagem` (`src/geoprocessing.py`
lines 212-276) for one timestamp: raises (modelled as `Except.error`)
when no station row exists for the hour or fewer than 2 station rows are
available, otherwise processes every requested variable. `dados` maps
each variable name to its per-station value column (`none` models a
missing column). -/
def processar_hora_krigagem (num_estacoes num_pontos : ℕ)
    (dados : List (String × Option (List FloatV)))
    (krig : List FloatV → ResultadoVariavel) :
    Except String (List (String × ResultadoVariavel)) :=
  if num_estacoes = 0 then .error "Nenhum dado encontrado"
  else if num_estacoes < 2 then .error "Insuficientes estações para krigagem"
  else .ok (dados.map (fun p => (p.1, processar_variavel_krigagem p.2 num_pontos krig)))

/-- The per-hour `try/except` of `GeoProcessor.executar_krigagem_horaria`
(`src/geoprocessing.py` lines 196-207): an exception from
`_processar_hora_krigagem` is caught and replaced with
`_criar_resultado_nan` (all-NaN for every variable); the run continues. -/
def executar_krigagem_hora (num_estacoes num_pontos : ℕ)
    (dados : List (String × Option (List FloatV)))
    (krig : List FloatV → ResultadoVariavel) : List (String × ResultadoVariavel) :=
  match processar_hora_krigagem num_estacoes num_pontos dados krig with
  | .error _ => dados.map (fun p => (p.1, criar_resultado_nan_variavel num_pontos))
  | .ok r => r

/-! ## thermal_model.py : CIGRE 601 heat balance over ℝ
(`CigreModeloTermico`, `src/thermal_model.py`). Python `math` arithmetic
is modelled by exact real arithmetic. -/

/-- `config.STEFAN_BOLTZMANN` (W/m²K⁴). -/
noncomputable def STEFAN_BOLTZMANN : ℝ := 5.670374419e-8

/-- `config.GRAVIDADE` (m/s²). -/
noncomputable def GRAVIDADE : ℝ := 9.80665

/-- `config.DENSIDADE_AR_PADRAO` (kg/m³ at 20 °C). -/
noncomputable def DENSIDADE_AR_PADRAO : ℝ := 1.225

/-- `config.VISCOSIDADE_CINEMATICA_AR` (m²/s at 20 °C). -/
noncomputable def VISCOSIDADE_CINEMATICA_AR : ℝ := 15.06e-6

/-- `config.CONDUTIVIDADE_TERMICA_AR` (W/m·K at 20 °C). -/
noncomputable def CONDUTIVIDADE_TERMICA_AR : ℝ := 0.0263

/-- The conductor parameters held by `CigreModeloTermico.__init__`. -/
structure ParametrosCondutor : Type where
  diametro : ℝ
  resistencia_ac_25 : ℝ
  resistencia_ac_75 : ℝ
  emissividade : ℝ
  absortividade : ℝ

namespace CigreModeloTermico

/-- `CigreModeloTermico._densidade_ar` (`src/thermal_model.py` 251-255). -/
noncomputable def densidade_ar (temperatura_abs : ℝ) : ℝ :=
  DENSIDADE_AR_PADRAO * (293.15 / temperatura_abs)

/-- `CigreModeloTermico._viscosidade_cinematica_ar`
(`src/thermal_model.py` 257-263), Sutherland's law. -/
noncomputable def viscosidade_cinematica_ar (temperatura_abs : ℝ) : ℝ :=
  VISCOSIDADE_CINEMATICA_AR * (temperatura_abs / 293.15) ^ (1.5 : ℝ) *
    ((293.15 + 110.4) / (temperatura_abs + 110.4))

/-- `CigreModeloTermico._condutividade_termica_ar`
(`src/thermal_model.py` 265-269). -/
noncomputable def condutividade_termica_ar (temperatura_abs : ℝ) : ℝ :=
  CONDUTIVIDADE_TERMICA_AR * (temperatura_abs / 293.15) ^ (0.8 : ℝ)

/-- `CigreModeloTermico._nusselt_conveccao_natural`
(`src/thermal_model.py` 206-217). -/
noncomputable def nusselt_conveccao_natural (Gr Pr : ℝ) : ℝ :=
  let Ra := Gr * Pr
  if Ra < 1e-5 then 0.4
  else if Ra < 1e3 then 0.675 * Ra ^ (0.058 : ℝ)
  else if Ra < 1e9 then 1.02 * Ra ^ (0.148 : ℝ)
  else 0.85 * Ra ^ (0.188 : ℝ)

/-- `CigreModeloTermico._nusselt_conveccao_forcada`
(`src/thermal_model.py` 219-232); the `Pr` argument is accepted and
ignored exactly as in the source. -/
noncomputable def nusselt_conveccao_forcada (Re _Pr : ℝ) : ℝ :=
  if Re < 0.4 then 0.8
  else if Re < 4 then 0.821 * Re ^ (0.385 : ℝ)
  else if Re < 40 then 0.615 * Re ^ (0.466 : ℝ)
  else if Re < 4000 then 0.174 * Re ^ (0.618 : ℝ)
  else if Re < 40000 then 0.0239 * Re ^ (0.805 : ℝ)
  else 0.0239 * Re ^ (0.805 : ℝ)

/-- `CigreModeloTermico.calcular_resfriamento_convectivo`
(`src/thermal_model.py` 151-204). `math.radians(x) = x·π/180`;
the locally computed air density is unused in the source as well. -/
noncomputable def calcular_resfriamento_convectivo (p : ParametrosCondutor)
    (velocidade_vento angulo_vento temperatura_ar temperatura_condutor : ℝ) : ℝ :=
  let temp_filme := (temperatura_ar + temperatura_condutor) / 2 + 273.15
  let nu_ar := viscosidade_cinematica_ar temp_filme
  let k_ar := condutividade_termica_ar temp_filme
  let T_ar_abs := temperatura_ar + 273.15
  let T_c_abs := temperatura_condutor + 273.15
  let v_perp := velocidade_vento * Real.sin (angulo_vento * Real.pi / 180)
  let Re := max 1e-6 (v_perp * p.diametro / nu_ar)
  let beta := 1 / temp_filme
  let Gr := GRAVIDADE * beta * |T_c_abs - T_ar_abs| * p.diametro ^ (3 : ℕ) / nu_ar ^ (2 : ℕ)
  let Pr := (0.7 : ℝ)
  let Nu :=
    if v_perp < 0.1 then nusselt_conveccao_natural Gr Pr
    else max (nusselt_conveccao_forcada Re Pr) (nusselt_conveccao_natural Gr Pr)
  let h_c := Nu * k_ar / p.diametro
  Real.pi * p.diametro * h_c * (T_c_abs - T_ar_abs)

/-- `CigreModeloTermico.calcular_resfriamento_radiativo`
(`src/thermal_model.py` 234-249). -/
noncomputable def calcular_resfriamento_radiativo (p : ParametrosCondutor)
    (temperatura_ar temperatura_condutor : ℝ) : ℝ :=
  p.emissividade * STEFAN_BOLTZMANN * Real.pi * p.diametro *
    ((temperatura_condutor + 273.15) ^ (4 : ℕ) - (temperatura_ar + 273.15) ^ (4 : ℕ))

/-- `CigreModeloTermico.calcular_aquecimento_solar`
(`src/thermal_model.py` 74-102) on the call path used by the heat
balance and the ampacity computation (no latitude/day/hour supplied),
where the solar form factor is the constant `0.5`. -/
noncomputable def calcular_aquecimento_solar (p : ParametrosCondutor)
    (radiacao_solar _azimute_linha : ℝ) : ℝ :=
  p.absortividade * p.diametro * radiacao_solar * 0.5

/-- `CigreModeloTermico.calcular_aquecimento_joule`
(`src/thermal_model.py` 60-72). -/
noncomputable def calcular_aquecimento_joule (p : ParametrosCondutor)
    (corrente temperatura_condutor : ℝ) : ℝ :=
  corrente ^ (2 : ℕ) *
    calcular_resistencia_ac p.resistencia_ac_25 p.resistencia_ac_75 temperatura_condutor

/-- `CigreModeloTermico.equacao_balanco_termico`
(`src/thermal_model.py` 271-305):
`P_joule + P_solar - P_convectivo - P_radiativo`. The source's
`except` branch (returning `inf`) is unreachable under total real
arithmetic and is not modelled. -/
noncomputable def equacao_balanco_termico (p : ParametrosCondutor)
    (temperatura_condutor corrente radiacao_solar azimute_linha
      velocidade_vento angulo_vento temperatura_ar : ℝ) : ℝ :=
  calcular_aquecimento_joule p corrente temperatura_condutor +
    calcular_aquecimento_solar p radiacao_solar azimute_linha -
    calcular_resfriamento_convectivo p velocidade_vento angulo_vento
      temperatura_ar temperatura_condutor -
    calcular_resfriamento_radiativo p temperatura_ar temperatura_condutor

/-- The available Joule power `P_joule_max = P_convectivo + P_radiativo -
P_solar` computed by `CigreModeloTermico.calcular_ampacidade`
(`src/thermal_model.py` 383-393). -/
noncomputable def potencia_joule_max (p : ParametrosCondutor)
    (temperatura_maxima radiacao_solar azimute_linha
      velocidade_vento angulo_vento temperatura_ar : ℝ) : ℝ :=
  calcular_resfriamento_convectivo p velocidade_vento angulo_vento
      temperatura_ar temperatura_maxima +
    calcular_resfriamento_radiativo p temperatura_ar temperatura_maxima -
    calcular_aquecimento_solar p radiacao_solar azimute_linha

/-- `CigreModeloTermico.calcular_ampacidade`
(`src/thermal_model.py` 367-403): `0` when `P_joule_max ≤ 0`, otherwise
`sqrt(P_joule_max / R_ac(T_max))`. -/
noncomputable def calcular_ampacidade (p : ParametrosCondutor)
    (temperatura_maxima radiacao_solar azimute_linha
      velocidade_vento angulo_vento temperatura_ar : ℝ) : ℝ :=
  let P_joule_max := potencia_joule_max p temperatura_maxima radiacao_solar
    azimute_linha velocidade_vento angulo_vento temperatura_ar
  if P_joule_max ≤ 0 then 0
  else
    Real.sqrt (P_joule_max /
      calcular_resistencia_ac p.resistencia_ac_25 p.resistencia_ac_75 temperatura_maxima)

end CigreModeloTermico

/-! ## Helper lemmas -/

/-- Clamping bounds of `np.clip` when the bounds are ordered. -/
theorem npClip_mem (valor lo hi : ℚ) (h : lo ≤ hi) :
    lo ≤ npClip valor lo hi ∧ npClip valor lo hi ≤ hi := by
  unfold npClip
  constructor
  · exact le_min (le_max_right _ _) h
  · exact min_le_right _ _

/-! ## Claims -/

/-- C1: the conservative fallback `T_air + 50` produced by the `except`
branch of `resolver_temperatura_condutor` is a bare float that passes
`_validar_temperatura_resultado` and is appended to the Monte Carlo
temperature distribution as a valid iteration (with `temperatura_ar = 25`
the fallback 75 °C is accepted and counted, with zero failed
iterations), contradicting the requirement that fallback roots be
flagged or excluded. -/
theorem C1_fallback_aceito_como_valido :
    validar_temperatura_resultado (.val (fallback_temperatura 25)) 25 = true ∧
    executar_loop_simulacao [(.val (fallback_temperatura 25), 25)] = ([.val 75], 0) := by
  norm_num [validar_temperatura_resultado, executar_loop_simulacao, fallback_temperatura]

/-- C2 counterexample: the Monte Carlo sampler clamp
`_aplicar_limites_fisicos` does not use the kriging post-filter bounds:
a sampled air temperature of 58 °C and a sampled radiation of 2000 pass
through unchanged although 58 ∉ [-10, 55] and 2000 ∉ [0, 1400]. -/
theorem C2_counterexample :
    aplicar_limites_fisicos "temperatura_ar" 58 = 58 ∧
    ¬ (58 : ℚ) ≤ KRIG_TEMP_MAX ∧
    aplicar_limites_fisicos "radiacao_global" 2000 = 2000 ∧
    ¬ (2000 : ℚ) ≤ KRIG_RADIACAO_MAX := by
  decide

/-- C2 (amended): every sampled value is clamped by
`_aplicar_limites_fisicos`, but to the configuration bounds of
`config.py` — air temperature to `[-50, 60]` °C, radiation to
`[0, 4000]`, wind components to `[-50, 50]` m/s — not to the kriging
post-filter bounds. -/
theorem C2_limites_fisicos_config (valor : ℚ) :
    (TEMP_AR_MIN ≤ aplicar_limites_fisicos "temperatura_ar" valor ∧
      aplicar_limites_fisicos "temperatura_ar" valor ≤ TEMP_AR_MAX) ∧
    (RADIACAO_MIN ≤ aplicar_limites_fisicos "radiacao_global" valor ∧
      aplicar_limites_fisicos "radiacao_global" valor ≤ RADIACAO_MAX) ∧
    (-VENTO_VEL_MAX ≤ aplicar_limites_fisicos "vento_u" valor ∧
      aplicar_limites_fisicos "vento_u" valor ≤ VENTO_VEL_MAX) ∧
    (-VENTO_VEL_MAX ≤ aplicar_limites_fisicos "vento_v" valor ∧
      aplicar_limites_fisicos "vento_v" valor ≤ VENTO_VEL_MAX) := by
  refine ⟨?_, ?_, ?_, ?_⟩ <;>
    simp only [aplicar_limites_fisicos, reduceIte] <;>
    exact npClip_mem _ _ _ (by norm_num [TEMP_AR_MIN, TEMP_AR_MAX, RADIACAO_MIN,
      RADIACAO_MAX, VENTO_VEL_MAX])

/-- C3: with `R25 < R75` the AC resistance is monotone on `[25, 75]`,
returns exactly `R25` at or below 25 °C and exactly `R75` at or above
75 °C. -/
theorem C3_resistencia_monotona (r25 r75 : ℚ) (h : r25 < r75) :
    (∀ T1 T2 : ℚ, 25 ≤ T1 → T1 < T2 → T2 ≤ 75 →
      calcular_resistencia_ac r25 r75 T1 ≤ calcular_resistencia_ac r25 r75 T2) ∧
    (∀ T : ℚ, T ≤ 25 → calcular_resistencia_ac r25 r75 T = r25) ∧
    (∀ T : ℚ, 75 ≤ T → calcular_resistencia_ac r25 r75 T = r75) := by
  refine ⟨?_, ?_, ?_⟩
  · intro T1 T2 h1 h12 h2
    unfold calcular_resistencia_ac
    split_ifs with hA hB hC hD hE <;> try nlinarith
  · intro T hT
    unfold calcular_resistencia_ac
    rw [if_pos hT]
  · intro T hT
    unfold calcular_resistencia_ac
    split_ifs with hA <;> [nlinarith; rfl]

/-- Witness for C3 at `R25 = 1`, `R75 = 2`. -/
theorem C3_resistencia_monotona_witness :
    (1 : ℚ) < 2 ∧
    calcular_resistencia_ac (1 : ℚ) 2 30 ≤ calcular_resistencia_ac (1 : ℚ) 2 50 ∧
    calcular_resistencia_ac (1 : ℚ) 2 10 = 1 ∧
    calcular_resistencia_ac (1 : ℚ) 2 80 = 2 := by
  have h := C3_resistencia_monotona (1 : ℚ) 2 (by norm_num)
  exact ⟨by norm_num,
    h.1 30 50 (by norm_num) (by norm_num) (by norm_num),
    h.2.1 10 (by norm_num), h.2.2 80 (by norm_num)⟩

/-- Evaluation form of `classificar_risco_nbr_5422` on a finite
probability. -/
theorem classificar_risco_eval (q : ℚ) :
    classificar_risco_nbr_5422 (.val q) =
      if q < 1/100 then "baixo"
      else if q < 5/100 then "moderado"
      else if q < 10/100 then "alto"
      else "critico" := by
  simp [classificar_risco_nbr_5422, FloatV.isNaN, FloatV.ltC]

/-- C5: `classificar_risco_nbr_5422` maps an exceedance probability `p`
to "baixo" when `p < 0.01`, "moderado" when `0.01 ≤ p < 0.05`, "alto"
when `0.05 ≤ p < 0.10`, "critico" when `p ≥ 0.10`, NaN to "indefinido";
in particular 0.0099 → baixo, 0.01 → moderado, 0.05 → alto,
0.10 → critico. -/
theorem C5_classificacao_risco (q : ℚ) :
    (q < 1/100 → classificar_risco_nbr_5422 (.val q) = "baixo") ∧
    (1/100 ≤ q → q < 5/100 → classificar_risco_nbr_5422 (.val q) = "moderado") ∧
    (5/100 ≤ q → q < 10/100 → classificar_risco_nbr_5422 (.val q) = "alto") ∧
    (10/100 ≤ q → classificar_risco_nbr_5422 (.val q) = "critico") ∧
    classificar_risco_nbr_5422 .nan = "indefinido" ∧
    classificar_risco_nbr_5422 (.val (99/10000)) = "baixo" ∧
    classificar_risco_nbr_5422 (.val (1/100)) = "moderado" ∧
    classificar_risco_nbr_5422 (.val (5/100)) = "alto" ∧
    classificar_risco_nbr_5422 (.val (10/100)) = "critico" := by
  refine ⟨?_, ?_, ?_, ?_, by simp [classificar_risco_nbr_5422, FloatV.isNaN],
    ?_, ?_, ?_, ?_⟩ <;> rw [classificar_risco_eval] <;> intros <;>
    split_ifs <;> first | rfl | linarith

/-- Witness for C5 at `p = 0.02` (moderado band). -/
theorem C5_classificacao_risco_witness :
    ((1:ℚ)/100 ≤ 2/100 ∧ (2:ℚ)/100 < 5/100) ∧
    classificar_risco_nbr_5422 (.val (2/100)) = "moderado" := by
  have h := C5_classificacao_risco (2/100)
  exact ⟨⟨by norm_num, by norm_num⟩, h.2.1 (by norm_num) (by norm_num)⟩

/-- C6: the exceedance probability is the fraction of finite values
strictly above the design limit, lies in `[0, 1]` whenever at least one
finite value exists, is 0 when all finite values are ≤ the limit, 1 when
all are > the limit, and NaN when no finite value exists. -/
theorem C6_risco_termico (dist : List FloatV) (limite : ℚ) (vs : List ℚ)
    (hvs : vs = dist.filterMap FloatV.finitePart) :
    (vs ≠ [] →
      calcular_risco_termico dist limite =
        .val ((vs.countP (fun t => decide (limite < t)) : ℚ) / (vs.length : ℚ)) ∧
      (0 : ℚ) ≤ (vs.countP (fun t => decide (limite < t)) : ℚ) / (vs.length : ℚ) ∧
      (vs.countP (fun t => decide (limite < t)) : ℚ) / (vs.length : ℚ) ≤ 1 ∧
      ((∀ t ∈ vs, t ≤ limite) →
        (vs.countP (fun t => decide (limite < t)) : ℚ) / (vs.length : ℚ) = 0) ∧
      ((∀ t ∈ vs, limite < t) →
        (vs.countP (fun t => decide (limite < t)) : ℚ) / (vs.length : ℚ) = 1)) ∧
    (vs = [] → calcular_risco_termico dist limite = .nan) := by
  subst hvs
  constructor
  · intro hne
    have hdist : dist ≠ [] := by
      rintro rfl
      simp at hne
    have hlen : 0 < (dist.filterMap FloatV.finitePart).length :=
      List.length_pos.mpr hne
    have hlenq : (0 : ℚ) < ((dist.filterMap FloatV.finitePart).length : ℚ) := by
      exact_mod_cast hlen
    refine ⟨?_, ?_, ?_, ?_, ?_⟩
    · simp only [calcular_risco_termico]
      rw [if_neg hdist, if_neg hne]
    · positivity
    · rw [div_le_one hlenq]
      exact_mod_cast List.countP_le_length _
    · intro hall
      have hc : (dist.filterMap FloatV.finitePart).countP
          (fun t => decide (limite < t)) = 0 := by
        rw [List.countP_eq_zero]
        intro a ha
        simpa using not_lt.mpr (hall a ha)
      rw [hc]
      simp
    · intro hall
      have hc : (dist.filterMap FloatV.finitePart).countP
          (fun t => decide (limite < t)) =
          (dist.filterMap FloatV.finitePart).length := by
        rw [List.countP_eq_length]
        intro a ha
        simpa using hall a ha
      rw [hc]
      exact div_self (ne_of_gt hlenq)
  · intro hempty
    by_cases hd : dist = []
    · simp only [calcular_risco_termico]
      rw [if_pos hd]
    · simp only [calcular_risco_termico]
      rw [if_neg hd, if_pos hempty]

/-- Witness for C6 on the distribution `[80, NaN, 70]` with limit 75:
one of the two finite values exceeds the limit. -/
theorem C6_risco_termico_witness :
    ([(80 : ℚ), 70] ≠ ([] : List ℚ)) ∧
    calcular_risco_termico [.val 80, .nan, .val 70] 75 = .val (1/2) := by
  have h := (C6_risco_termico [.val 80, .nan, .val 70] 75 [80, 70]
    (by simp [FloatV.finitePart])).1 (by simp)
  refine ⟨by simp, ?_⟩
  rw [h.1]
  have hc : ([(80 : ℚ), 70].countP (fun t => decide ((75 : ℚ) < t))) = 1 := by decide
  rw [hc]
  norm_num

/-- C7: the Monte Carlo loop's output distribution consists exactly of
the solved temperatures accepted by `_validar_temperatura_resultado`
(finite, ≥ `T_air - 5`, ≤ `T_air + 200`); every rejected temperature is
counted as a failed iteration instead. -/
theorem C7_validacao_temperatura (resultados : List (FloatV × ℚ)) :
    (executar_loop_simulacao resultados).1 =
      (resultados.filter fun r => validar_temperatura_resultado r.1 r.2).map Prod.fst ∧
    (executar_loop_simulacao resultados).2 =
      resultados.countP (fun r => !validar_temperatura_resultado r.1 r.2) ∧
    (∀ q ta : ℚ, validar_temperatura_resultado (.val q) ta = true ↔
      ta - 5 ≤ q ∧ q ≤ ta + 200) ∧
    (∀ t : FloatV, ∀ ta : ℚ, t.isFinite = false →
      validar_temperatura_resultado t ta = false) := by
  refine ⟨?_, ?_, ?_, ?_⟩
  · induction resultados with
    | nil => rfl
    | cons hd tl ih =>
      obtain ⟨t, ta⟩ := hd
      by_cases h : validar_temperatura_resultado t ta <;>
        simp [executar_loop_simulacao, List.filter_cons, h, ih]
  · induction resultados with
    | nil => rfl
    | cons hd tl ih =>
      obtain ⟨t, ta⟩ := hd
      by_cases h : validar_temperatura_resultado t ta <;>
        simp [executar_loop_simulacao, List.countP_cons, h, ih]
  · intro q ta
    simp only [validar_temperatura_resultado]
    split_ifs with h1 h2
    · simp only [Bool.false_eq_true, false_iff]
      rintro ⟨a, _⟩
      linarith
    · simp only [Bool.false_eq_true, false_iff]
      rintro ⟨_, b⟩
      linarith
    · simp only [true_iff]
      exact ⟨by linarith, by linarith⟩
  · intro t ta h
    cases t <;> simp_all [validar_temperatura_resultado, FloatV.isFinite]

/-- Witness for C7: the validator accepts 30 °C at `T_air = 20` and
rejects NaN. -/
theorem C7_validacao_temperatura_witness :
    FloatV.isNaN .nan = true ∧
    validar_temperatura_resultado .nan 20 = false ∧
    (validar_temperatura_resultado (.val 30) 20 = true ↔
      (20 : ℚ) - 5 ≤ 30 ∧ (30 : ℚ) ≤ 20 + 200) := by
  exact ⟨rfl, (C7_validacao_temperatura []).2.2.2 .nan 20 rfl,
    (C7_validacao_temperatura []).2.2.1 30 20⟩

/-- C8: the variance sequence returned by a successful per-variable
kriging run is the raw solver variance floored at 0 element-wise (hence
non-negative everywhere), and the derived standard deviation is its
square root. -/
theorem C8_variancia_nao_negativa (ss_pred : List ℚ) :
    (floor_variancias ss_pred).Forall (fun v => 0 ≤ v) ∧
    List.Forall₂ (fun raw out => out = max raw 0) ss_pred (floor_variancias ss_pred) ∧
    List.Forall₂ (fun v s => s = Real.sqrt (v : ℝ) ∧ s ^ (2 : ℕ) = (v : ℝ) ∧ 0 ≤ s)
      (floor_variancias ss_pred) (desvios_padrao_krigagem ss_pred) := by
  refine ⟨?_, ?_, ?_⟩
  · induction ss_pred with
    | nil => simp [floor_variancias]
    | cons a l ih =>
      simp only [floor_variancias, List.map_cons, List.forall_cons] at *
      exact ⟨le_max_right _ _, ih⟩
  · induction ss_pred with
    | nil => simp [floor_variancias]
    | cons a l ih =>
      simp only [floor_variancias, List.map_cons] at *
      exact List.Forall₂.cons rfl ih
  · induction ss_pred with
    | nil => simp [floor_variancias, desvios_padrao_krigagem]
    | cons a l ih =>
      simp only [floor_variancias, desvios_padrao_krigagem, List.map_cons] at *
      refine List.Forall₂.cons ⟨rfl, ?_, Real.sqrt_nonneg _⟩ ih
      exact Real.sq_sqrt (by exact_mod_cast le_max_right a 0)

/-- C9: a (timestamp, variable) slice with fewer than 2 non-NaN station
values (in particular exactly one) is mapped to the all-NaN sentinel of
the correct length, the kriging oracle is never consulted for it, and
the run always produces a result for the slice (both the per-variable
branch and the caught hour-level exception yield the sentinel). -/
theorem C9_krigagem_insuficiente (num_estacoes num_pontos : ℕ)
    (dados : List (String × Option (List FloatV)))
    (krig : List FloatV → ResultadoVariavel) (v : String)
    (vals : Option (List FloatV))
    (hmem : (v, vals) ∈ dados)
    (hins : ∀ vs, vals = some vs → (vs.filter (fun x => !x.isNaN)).length < 2) :
    (v, criar_resultado_nan_variavel num_pontos) ∈
      executar_krigagem_hora num_estacoes num_pontos dados krig ∧
    processar_variavel_krigagem vals num_pontos krig =
      criar_resultado_nan_variavel num_pontos ∧
    (criar_resultado_nan_variavel num_pontos).media =
      List.replicate num_pontos .nan ∧
    (criar_resultado_nan_variavel num_pontos).variancia =
      List.replicate num_pontos .nan ∧
    (criar_resultado_nan_variavel num_pontos).desvio_padrao =
      List.replicate num_pontos .nan ∧
    (criar_resultado_nan_variavel num_pontos).media.length = num_pontos := by
  have hproc : processar_variavel_krigagem vals num_pontos krig =
      criar_resultado_nan_variavel num_pontos := by
    cases vals with
    | none => rfl
    | some vs =>
      simp only [processar_variavel_krigagem]
      rw [if_pos (hins vs rfl)]
  refine ⟨?_, hproc, rfl, rfl, rfl, by simp [criar_resultado_nan_variavel]⟩
  unfold executar_krigagem_hora processar_hora_krigagem
  by_cases h0 : num_estacoes = 0
  · simp only [h0, if_pos rfl]
    exact List.mem_map_of_mem _ hmem
  · by_cases h2 : num_estacoes < 2
    · simp only [if_neg h0, if_pos h2]
      exact List.mem_map_of_mem _ hmem
    · simp only [if_neg h0, if_neg h2]
      rw [← hproc]
      exact List.mem_map_of_mem _ hmem

/-- Witness for C9: a single variable column with exactly one non-NaN
station value is mapped to the all-NaN sentinel of length 3. -/
theorem C9_krigagem_insuficiente_witness :
    (("temperatura_ar", some [FloatV.val 20, FloatV.nan]) ∈
      [("temperatura_ar", some [FloatV.val 20, FloatV.nan])]) ∧
    ("temperatura_ar", criar_resultado_nan_variavel 3) ∈
      executar_krigagem_hora 5 3 [("temperatura_ar", some [FloatV.val 20, FloatV.nan])]
        (fun _ => ⟨[], [], []⟩) := by
  refine ⟨List.mem_cons_self _ _, ?_⟩
  exact (C9_krigagem_insuficiente 5 3 _ (fun _ => ⟨[], [], []⟩) "temperatura_ar"
    (some [FloatV.val 20, FloatV.nan]) (List.mem_cons_self _ _)
    (fun vs h => by
      injection h with h'
      subst h'
      decide)).1

/-- `_validar_dados_entrada` succeeds on a variable list exactly when
every variable passes the per-variable validity check. -/
theorem validar_dados_entrada_isOk (medias desvios : List (String × FloatV)) :
    ∀ vars : List String,
      validar_dados_entrada medias desvios vars = .ok () ↔
        vars.all (entrada_valida medias desvios) = true := by
  intro vars
  induction vars with
  | nil => simp [validar_dados_entrada]
  | cons v rest ih =>
    simp only [validar_dados_entrada, List.all_cons, Bool.and_eq_true]
    cases hm : medias.lookup v with
    | none => simp [entrada_valida, hm]
    | some m =>
      cases hd : desvios.lookup v with
      | none => simp [entrada_valida, hm, hd]
      | some d =>
        simp only [hm, hd]
        have hent : entrada_valida medias desvios v =
            (m.isFinite && (d.isFinite && !(d.ltC 0))) := by
          simp [entrada_valida, hm, hd]
        rw [hent]
        by_cases hmf : m.isFinite = true
        · by_cases hdfin : d.isFinite = true
          · by_cases hneg : d.ltC 0 = true
            · rw [if_neg (not_not_intro hmf), if_pos (Or.inr hneg)]
              simp [hneg]
            · rw [if_neg (not_not_intro hmf),
                if_neg (by simp [hdfin, hneg]), ih]
              simp [hmf, hdfin, hneg]
          · rw [if_neg (not_not_intro hmf), if_pos (Or.inl hdfin)]
            simp [hdfin]
        · rw [if_pos hmf]
          simp [hmf]

/-- C10: `executar_simulacao` succeeds exactly when the four required
environmental variables are present in both dictionaries with finite
means and finite non-negative standard deviations; a validation error
is propagated as-is and the simulation loop never runs in that case. -/
theorem C10_validacao_antes_da_simulacao (medias desvios : List (String × FloatV))
    (resultados : List (FloatV × ℚ)) :
    ((∃ r, executar_simulacao medias desvios resultados = .ok r) ↔
      variaveis_obrigatorias.all (entrada_valida medias desvios) = true) ∧
    (∀ e, validar_dados_entrada medias desvios variaveis_obrigatorias = .error e →
      executar_simulacao medias desvios resultados = .error e) ∧
    (variaveis_obrigatorias.all (entrada_valida medias desvios) = true →
      executar_simulacao medias desvios resultados =
        .ok (executar_loop_simulacao resultados)) := by
  unfold executar_simulacao
  cases hv : validar_dados_entrada medias desvios variaveis_obrigatorias with
  | error e =>
    have hnotok : ¬ variaveis_obrigatorias.all (entrada_valida medias desvios) = true := by
      intro hall
      have := (validar_dados_entrada_isOk medias desvios variaveis_obrigatorias).mpr hall
      rw [hv] at this
      exact Except.noConfusion this
    refine ⟨?_, ?_, ?_⟩
    · simp [hnotok]
    · intro e' he'
      injection he' with h
      subst h
      rfl
    · intro hall
      exact absurd hall hnotok
  | ok u =>
    cases u
    have hall := (validar_dados_entrada_isOk medias desvios variaveis_obrigatorias).mp hv
    refine ⟨?_, ?_, fun _ => rfl⟩
    · simp [hall]
    · intro e' he'
      exact Except.noConfusion he'

/-- Witness for C10: with `vento_u` absent from the means the simulation
raises the corresponding `ValueError` and runs no iteration. -/
theorem C10_validacao_antes_da_simulacao_witness :
    validar_dados_entrada
        [("temperatura_ar", FloatV.val 25), ("radiacao_global", FloatV.val 800),
          ("vento_v", FloatV.val 1)]
        [("temperatura_ar", FloatV.val 2), ("radiacao_global", FloatV.val 100),
          ("vento_v", FloatV.val 1)] variaveis_obrigatorias =
      .error "Variável 'vento_u' não encontrada nas médias ambientais" ∧
    executar_simulacao
        [("temperatura_ar", FloatV.val 25), ("radiacao_global", FloatV.val 800),
          ("vento_v", FloatV.val 1)]
        [("temperatura_ar", FloatV.val 2), ("radiacao_global", FloatV.val 100),
          ("vento_v", FloatV.val 1)] [(FloatV.val 40, 25)] =
      .error "Variável 'vento_u' não encontrada nas médias ambientais" := by
  have hv : validar_dados_entrada
      [("temperatura_ar", FloatV.val 25), ("radiacao_global", FloatV.val 800),
        ("vento_v", FloatV.val 1)]
      [("temperatura_ar", FloatV.val 2), ("radiacao_global", FloatV.val 100),
        ("vento_v", FloatV.val 1)] variaveis_obrigatorias =
      .error "Variável 'vento_u' não encontrada nas médias ambientais" := by
    simp [validar_dados_entrada, variaveis_obrigatorias, List.lookup,
      FloatV.isFinite, FloatV.ltC]
    norm_num
  exact ⟨hv, (C10_validacao_antes_da_simulacao _ _ _).2.1 _ hv⟩

open CigreModeloTermico in
/-- C4: `calcular_ampacidade` returns 0 whenever convective + radiative
cooling at the maximum temperature is at most the solar gain; otherwise
it returns `sqrt(P_joule_max / R_ac(T_max))`, and at that current the
heat balance at the maximum temperature is exactly zero (round-trip
consistency). -/
theorem C4_ampacidade_consistente (p : ParametrosCondutor)
    (temperatura_maxima radiacao_solar azimute_linha velocidade_vento
      angulo_vento temperatura_ar : ℝ) :
    (potencia_joule_max p temperatura_maxima radiacao_solar azimute_linha
        velocidade_vento angulo_vento temperatura_ar ≤ 0 →
      calcular_ampacidade p temperatura_maxima radiacao_solar azimute_linha
        velocidade_vento angulo_vento temperatura_ar = 0) ∧
    (0 < potencia_joule_max p temperatura_maxima radiacao_solar azimute_linha
        velocidade_vento angulo_vento temperatura_ar →
     0 < calcular_resistencia_ac p.resistencia_ac_25 p.resistencia_ac_75
        temperatura_maxima →
      calcular_ampacidade p temperatura_maxima radiacao_solar azimute_linha
          velocidade_vento angulo_vento temperatura_ar =
        Real.sqrt (potencia_joule_max p temperatura_maxima radiacao_solar
            azimute_linha velocidade_vento angulo_vento temperatura_ar /
          calcular_resistencia_ac p.resistencia_ac_25 p.resistencia_ac_75
            temperatura_maxima) ∧
      equacao_balanco_termico p temperatura_maxima
          (calcular_ampacidade p temperatura_maxima radiacao_solar azimute_linha
            velocidade_vento angulo_vento temperatura_ar)
          radiacao_solar azimute_linha velocidade_vento angulo_vento
          temperatura_ar = 0) := by
  constructor
  · intro h
    simp only [calcular_ampacidade]
    rw [if_pos h]
  · intro hP hR
    have hamp : calcular_ampacidade p temperatura_maxima radiacao_solar
        azimute_linha velocidade_vento angulo_vento temperatura_ar =
        Real.sqrt (potencia_joule_max p temperatura_maxima radiacao_solar
            azimute_linha velocidade_vento angulo_vento temperatura_ar /
          calcular_resistencia_ac p.resistencia_ac_25 p.resistencia_ac_75
            temperatura_maxima) := by
      simp only [calcular_ampacidade]
      rw [if_neg (not_le.mpr hP)]
    refine ⟨hamp, ?_⟩
    rw [hamp]
    simp only [equacao_balanco_termico, calcular_aquecimento_joule]
    rw [Real.sq_sqrt (div_nonneg hP.le hR.le), div_mul_cancel₀ _ (ne_of_gt hR)]
    simp only [potencia_joule_max]
    ring

/-- Witness conductor parameters: a 10 μm conductor with `R25 = 1`,
`R75 = 2`, emissivity and absorptivity 0.5, chosen so that at
`T_ar = 15`, `T_max = 25` the film temperature is exactly 293.15 K and
the Rayleigh number falls in the constant branch of the natural
convection correlation. -/
noncomputable def p_teste : ParametrosCondutor :=
  ⟨1e-5, 1, 2, 0.5, 0.5⟩

/-- Sutherland viscosity at the reference film temperature. -/
theorem viscosidade_ref :
    CigreModeloTermico.viscosidade_cinematica_ar 293.15 = 15.06e-6 := by
  unfold CigreModeloTermico.viscosidade_cinematica_ar VISCOSIDADE_CINEMATICA_AR
  rw [show ((293.15 : ℝ) / 293.15) = 1 by norm_num, Real.one_rpow]
  norm_num

/-- Air thermal conductivity at the reference film temperature. -/
theorem condutividade_ref :
    CigreModeloTermico.condutividade_termica_ar 293.15 = 0.0263 := by
  unfold CigreModeloTermico.condutividade_termica_ar CONDUTIVIDADE_TERMICA_AR
  rw [show ((293.15 : ℝ) / 293.15) = 1 by norm_num, Real.one_rpow]
  norm_num

/-- The natural convection Nusselt number in the small-Rayleigh branch. -/
theorem nusselt_natural_pequeno (Gr Pr : ℝ) (h : Gr * Pr < 1e-5) :
    CigreModeloTermico.nusselt_conveccao_natural Gr Pr = 0.4 := by
  simp only [CigreModeloTermico.nusselt_conveccao_natural]
  rw [if_pos h]

/-- Convective cooling at the witness input. -/
theorem conv_teste :
    CigreModeloTermico.calcular_resfriamento_convectivo p_teste 0 0 15 25 =
      Real.pi * 0.1052 := by
  have habs : |((25 : ℝ) + 273.15) - (15 + 273.15)| = 10 := by
    rw [show ((25 : ℝ) + 273.15) - (15 + 273.15) = 10 by norm_num]
    exact abs_of_pos (by norm_num)
  simp only [CigreModeloTermico.calcular_resfriamento_convectivo, p_teste,
    show ((15 : ℝ) + 25) / 2 + 273.15 = 293.15 by norm_num,
    habs, viscosidade_ref, condutividade_ref, zero_mul]
  rw [if_pos (by norm_num : (0 : ℝ) < 0.1)]
  rw [nusselt_natural_pequeno _ _ (by norm_num [GRAVIDADE])]
  ring_nf

/-- Radiative cooling is strictly positive at the witness input. -/
theorem rad_teste_pos :
    0 < CigreModeloTermico.calcular_resfriamento_radiativo p_teste 15 25 := by
  simp only [CigreModeloTermico.calcular_resfriamento_radiativo, p_teste,
    STEFAN_BOLTZMANN]
  have h4 : ((15 : ℝ) + 273.15) ^ (4 : ℕ) < ((25 : ℝ) + 273.15) ^ (4 : ℕ) := by
    apply pow_lt_pow_left₀ (by norm_num) (by norm_num)
    norm_num
  refine mul_pos (mul_pos (mul_pos (mul_pos ?_ ?_) Real.pi_pos) ?_)
    (sub_pos.mpr h4) <;> norm_num

/-- Solar gain vanishes at the witness input (zero radiation). -/
theorem solar_teste :
    CigreModeloTermico.calcular_aquecimento_solar p_teste 0 0 = 0 := by
  simp [CigreModeloTermico.calcular_aquecimento_solar]

/-- Available Joule power is strictly positive at the witness input. -/
theorem pj_teste_pos :
    0 < CigreModeloTermico.potencia_joule_max p_teste 25 0 0 0 0 15 := by
  unfold CigreModeloTermico.potencia_joule_max
  rw [conv_teste, solar_teste]
  have h1 : (0 : ℝ) < Real.pi * 0.1052 :=
    mul_pos Real.pi_pos (by norm_num)
  linarith [rad_teste_pos]

/-- Witness for C4 at the `p_teste` conductor, `T_max = 25`, `T_ar = 15`,
no wind, no radiation: the hypotheses hold and the heat balance at the
computed ampacity is exactly zero. -/
theorem C4_ampacidade_consistente_witness :
    0 < CigreModeloTermico.potencia_joule_max p_teste 25 0 0 0 0 15 ∧
    0 < calcular_resistencia_ac p_teste.resistencia_ac_25
        p_teste.resistencia_ac_75 (25 : ℝ) ∧
    CigreModeloTermico.equacao_balanco_termico p_teste 25
        (CigreModeloTermico.calcular_ampacidade p_teste 25 0 0 0 0 15)
        0 0 0 0 15 = 0 := by
  have hR : 0 < calcular_resistencia_ac p_teste.resistencia_ac_25
      p_teste.resistencia_ac_75 (25 : ℝ) := by
    norm_num [calcular_resistencia_ac, p_teste]
  exact ⟨pj_teste_pos, hR,
    ((C4_ampacidade_consistente p_teste 25 0 0 0 0 15).2 pj_teste_pos hR).2⟩
